import Mathlib

/-!
# Verification of the `textscreen` core (Pagination / TextWindow / TextPad)

Shallow embedding of `src/textscreen.py`.  Python integers are modelled as
`Int` at call boundaries; `Pagination`'s stored fields are modelled as `Nat`
because every reachable store is non-negative (the constructor clamps, the
setters reject arguments `< 1`, and `setCurrentPage` only stores a positive
page).  Python strings are `List Char`.  A Python method that mutates `self`
and returns a boolean becomes a function `State → args → Bool × State`;
a method that can only raise becomes an `Except` value.
-/

namespace Textscreen

/-- Ceiling division on `Nat`, the value of Python's
`math.ceil(a / b)` for `a ≥ 0, b ≥ 1` (every use in the source has
`b = _items_per_page ≥ 1`). -/
def ceilDiv (a b : Nat) : Nat := (a + b - 1) / b

/-- The `Pagination` object: fields `_items_per_page`, `_total_items`,
`_current_page`, `_total_pages` of `src/textscreen.py` lines 150-155.
Note the Python class has *no* attribute `_currentPage` nor `_total_page`;
accessing either raises `AttributeError`. -/
structure Pagination where
  items_per_page : Nat
  total_items : Nat
  current_page : Nat
  total_pages : Nat
deriving Repr, DecidableEq

namespace Pagination

/-- `Pagination.__init__(items_per_page, total_items=0)`:
`self._items_per_page = items_per_page if items_per_page and items_per_page > 0 else 1`,
`self._total_items = total_items if total_items and total_items > 0 else 0`,
`self._current_page = 1`,
`self._total_pages = math.ceil(self._total_items / self._items_per_page)`.
(For an `Int` argument, `x and x > 0` is equivalent to `0 < x`.) -/
def init (items_per_page : Int) (total_items : Int := 0) : Pagination :=
  let ipp := if 0 < items_per_page then items_per_page.toNat else 1
  let ti := if 0 < total_items then total_items.toNat else 0
  { items_per_page := ipp
    total_items := ti
    current_page := 1
    total_pages := ceilDiv ti ipp }

/-- `Pagination.setCurrentPage(page)` (lines 157-164):
`if page and page > 0 and (not self._total_items or page <= self._total_pages):
self._current_page = page; return True; else: return False`. -/
def setCurrentPage (p : Pagination) (page : Int) : Bool × Pagination :=
  if 0 < page ∧ (p.total_items = 0 ∨ page ≤ (p.total_pages : Int)) then
    (true, { p with current_page := page.toNat })
  else
    (false, p)

/-- `Pagination.setItemsPerPage(items_per_page, reset_current_page=True)`
(lines 166-174).  Note the source's reset condition is literally
`reset_current_page or self._current_page < self._total_pages` — a `<`,
not a `>`. -/
def setItemsPerPage (p : Pagination) (items_per_page : Int)
    (reset_current_page : Bool := true) : Bool × Pagination :=
  if items_per_page = 0 ∨ items_per_page < 1 then
    (false, p)
  else
    let ipp := items_per_page.toNat
    let tp := ceilDiv p.total_items ipp
    (true,
      { items_per_page := ipp
        total_items := p.total_items
        total_pages := tp
        current_page :=
          if reset_current_page ∨ p.current_page < tp then 1 else p.current_page })

/-- `Pagination.setTotalItems(total_items, reset_current_page=False)`
(lines 176-184).  Same literal `<` in the reset condition as
`setItemsPerPage`. -/
def setTotalItems (p : Pagination) (total_items : Int)
    (reset_current_page : Bool := false) : Bool × Pagination :=
  if total_items = 0 ∨ total_items < 1 then
    (false, p)
  else
    let ti := total_items.toNat
    let tp := ceilDiv ti p.items_per_page
    (true,
      { items_per_page := p.items_per_page
        total_items := ti
        total_pages := tp
        current_page :=
          if reset_current_page ∨ p.current_page < tp then 1 else p.current_page })

/-- `Pagination.nextPage()` (lines 200-205):
`return(self._current_page + 1 if not self._total_items or
self._current_page < self._total_pages else 0)`. -/
def nextPage (p : Pagination) : Int :=
  if p.total_items = 0 ∨ p.current_page < p.total_pages then
    (p.current_page : Int) + 1
  else
    0

/-- `Pagination.previousPage()` (lines 207-211):
`return(self._currentPage - 1)`.  The class has no attribute
`_currentPage` (the field is `_current_page`), so this access raises
`AttributeError` on every call; the exceptional outcome is modelled as
`Except.error`. -/
def previousPage (_p : Pagination) : Except String Int :=
  Except.error "AttributeError: Pagination object has no attribute _currentPage"

/-- `Pagination.pageItems()` (lines 224-229):
`end = (begin + self._items_per_page - 1) if self._current_page <
self._total_page or not self._total_items else self._total_items`.
The class has no attribute `_total_page` (the field is `_total_pages`),
and the comparison `self._current_page < self._total_page` is evaluated
before either `or` branch can short-circuit, so every call raises
`AttributeError`; modelled as `Except.error`. -/
def pageItems (_p : Pagination) : Except String (Int × Int) :=
  Except.error "AttributeError: Pagination object has no attribute _total_page"

end Pagination

/-- `RichText` (lines 766-798): the positioned styled fragment.  Only the
data fields are modelled (`text`, `attrs`, `row`, `column`); the
`_factory_*` caches and `reserv_setting` only affect the rendered escape
string, which no claim is about. -/
structure RichText where
  text : List Char
  attrs : List Int
  row : Int
  column : Int
deriving Repr, DecidableEq

/-- `TextWindow` (lines 979-1147).  `screen_rows/screen_cols` model the
cached size of the owned `TextScreen` (`self.screen.rows/columns`). -/
structure TextWindow where
  screen_rows : Int
  screen_cols : Int
  rows : Int
  columns : Int
  beginRow : Int
  beginColumn : Int
  cursorRow : Int
  cursorColumn : Int
  savedCursorRow : Int
  savedCursorColumn : Int
  buffer : List RichText
deriving Repr, DecidableEq

namespace TextWindow

/-- `TextWindow.newLine` (lines 1045-1049). -/
def newLine (w : TextWindow) : TextWindow :=
  { w with cursorRow := w.cursorRow + 1, cursorColumn := 1 }

/-- `TextWindow.moveCursor(row=0, column=0, n=0, line_feed=False)`
(lines 1051-1066).  (`row and row > 0 and row <= self.rows` is
equivalent to `0 < row ∧ row ≤ self.rows` on `Int`; `if n:` is
`n ≠ 0`.) -/
def moveCursor (w : TextWindow) (row column n : Int) (line_feed : Bool) :
    TextWindow :=
  let w1 := if 0 < row ∧ row ≤ w.rows then { w with cursorRow := row } else w
  let w2 := if 0 < column ∧ column ≤ w.columns then
      { w1 with cursorColumn := column } else w1
  let w3 := if n ≠ 0 then { w2 with cursorColumn := w2.cursorColumn + n } else w2
  let w4 := if w3.cursorColumn < 1 then { w3 with cursorColumn := 1 } else w3
  if w4.cursorColumn > w.columns ∨ line_feed then w4.newLine else w4

/-- `TextWindow.newBuffer` (lines 1080-1084): clear the buffer and home
the cursor. -/
def newBuffer (w : TextWindow) : TextWindow :=
  { w with buffer := [], cursorRow := 1, cursorColumn := 1 }

/-- `TextWindow.setPos(beginRow, beginColumn)` (lines 1028-1037). -/
def setPos (w : TextWindow) (beginRow beginColumn : Int) : Bool × TextWindow :=
  if beginRow = 0 ∨ beginColumn = 0 ∨ beginRow < 1 ∨ beginColumn < 1 ∨
      beginRow + w.rows - 1 > w.screen_rows ∨
      beginColumn + w.columns - 1 > w.screen_cols then
    (false, w)
  else
    (true, { w with beginRow := beginRow, beginColumn := beginColumn })

/-- `TextWindow.setSize(rows, columns)` (lines 1010-1026): reject an
out-of-screen size; no-op success when unchanged; otherwise clear the
buffer, adopt the size and retry `setPos` at the old anchor, falling back
to `(1,1)`. -/
def setSize (w : TextWindow) (rows columns : Int) : Bool × TextWindow :=
  if rows = 0 ∨ columns = 0 ∨ rows < 1 ∨ columns < 1 ∨
      rows > w.screen_rows ∨ columns > w.screen_cols then
    (false, w)
  else if w.rows = rows ∧ w.columns = columns then
    (true, w)
  else
    let w1 := { w.newBuffer with rows := rows, columns := columns }
    let r := w1.setPos w1.beginRow w1.beginColumn
    if r.1 then (true, r.2) else (true, (r.2.setPos 1 1).2)

/-- `TextWindow.write(text, row=0, column=0, attrs=[], line_feed=False)`
(lines 1112-1131): resolve `row=0`/`column=0` to the cursor, reject an
anchor beyond the window, truncate to the remaining width, move the
cursor and append the fragment. -/
def write (w : TextWindow) (text : List Char) (row column : Int)
    (attrs : List Int) (line_feed : Bool) : Bool × TextWindow :=
  let rrow := if 0 < row then row else w.cursorRow
  let rcolumn := if 0 < column then column else w.cursorColumn
  if rrow > w.rows ∨ rcolumn > w.columns then
    (false, w)
  else
    let width : Int := min (text.length : Int) (w.columns - rcolumn + 1)
    let w1 := w.moveCursor rrow rcolumn width line_feed
    (true, { w1 with
      buffer := w1.buffer ++ [⟨text.take width.toNat, attrs, rrow, rcolumn⟩] })

end TextWindow

/-- `TextPad` (lines 1149-1379).  `items_per_page_fix` models
`self._items_per_page` (`None` until `paginate` is called with an
explicit count); `page` models the optional owned `Pagination`. -/
structure TextPad where
  window : TextWindow
  rows : Int
  columns : Int
  cursorRow : Int
  cursorColumn : Int
  savedCursorRow : Int
  savedCursorColumn : Int
  beginRow : Int
  beginColumn : Int
  page : Option Pagination
  max_rows : Int
  items_per_page_fix : Option Int
  lineWrap : Bool
  buffer : List RichText
  fullScreen : Bool
deriving Repr, DecidableEq

namespace TextPad

/-- `TextPad.newLine` (lines 1212-1216). -/
def newLine (p : TextPad) : TextPad :=
  { p with cursorRow := p.cursorRow + 1, cursorColumn := 1 }

/-- `TextPad.moveCursor(row=0, column=0, n=0, line_feed=False)`
(lines 1218-1233), same algorithm as `TextWindow.moveCursor` but against
the pad's size. -/
def moveCursor (p : TextPad) (row column n : Int) (line_feed : Bool) :
    TextPad :=
  let p1 := if 0 < row ∧ row ≤ p.rows then { p with cursorRow := row } else p
  let p2 := if 0 < column ∧ column ≤ p.columns then
      { p1 with cursorColumn := column } else p1
  let p3 := if n ≠ 0 then { p2 with cursorColumn := p2.cursorColumn + n } else p2
  let p4 := if p3.cursorColumn < 1 then { p3 with cursorColumn := 1 } else p3
  if p4.cursorColumn > p.columns ∨ line_feed then p4.newLine else p4

/-- `TextPad._updateMaxRows(row)` (lines 1365-1372): raise the
high-water mark and, when pagination is attached, push
`_max_rows - beginRow + 1` into it via `setTotalItems` (whose boolean
result is discarded). -/
def _updateMaxRows (p : TextPad) (row : Int) : TextPad :=
  if row > p.max_rows then
    match p.page with
    | some pg =>
        { p with max_rows := row
                 page := some (pg.setTotalItems (row - p.beginRow + 1) false).2 }
    | none => { p with max_rows := row }
  else p

/-- `TextPad.setDisplayPos(row=1, column=1)` (lines 1264-1270): clamp
each coordinate into the pad (out-of-range silently becomes 1), then
refresh the attached pagination's total from the high-water mark.
The Python method returns `None`: there is no failure result. -/
def setDisplayPos (p : TextPad) (row column : Int) : TextPad :=
  let p1 := { p with
    beginRow := if 0 < row ∧ row ≤ p.rows then row else 1
    beginColumn := if 0 < column ∧ column ≤ p.columns then column else 1 }
  match p1.page with
  | some pg =>
      { p1 with page := some (pg.setTotalItems (p1.max_rows - p1.beginRow + 1) false).2 }
  | none => p1

/-- `TextPad.write(text, row=0, column=0, attrs=[], line_feed=False)`
(lines 1311-1330): resolve the anchor, reject if beyond the pad, update
the high-water mark, buffer the first `min(len(text), columns-rcolumn+1)`
characters, move the cursor, and — when `lineWrap` is on and text
remains — recursively write the remainder at the cursor (which the
`moveCursor` overflow rule has placed at the next row, column 1).  The
recursive call's boolean result is discarded, exactly as in the source
(`self.write(text[l:], 0, 0, attrs)` on line 1329). -/
def write (p : TextPad) (text : List Char) (row column : Int)
    (attrs : List Int) (line_feed : Bool) : Bool × TextPad :=
  let rrow := if 0 < row then row else p.cursorRow
  let rcolumn := if 0 < column then column else p.cursorColumn
  if h1 : rrow > p.rows ∨ rcolumn > p.columns then
    (false, p)
  else
    let p1 := p._updateMaxRows rrow
    let p2 := { p1 with
      buffer := p1.buffer ++
        [RichText.mk (text.take (min (text.length : Int) (p.columns - rcolumn + 1)).toNat)
          attrs rrow rcolumn] }
    let p3 := p2.moveCursor rrow rcolumn
      (min (text.length : Int) (p.columns - rcolumn + 1)) line_feed
    if h2 : p.lineWrap = true ∧
        (text.length : Int) > min (text.length : Int) (p.columns - rcolumn + 1) then
      (true,
        (p3.write (text.drop (min (text.length : Int) (p.columns - rcolumn + 1)).toNat)
          0 0 attrs false).2)
    else
      (true, p3)
termination_by text.length
decreasing_by
  simp only [List.length_drop]
  omega

/-- `TextPad._writeWindowBuffer(rt)` (lines 1348-1363): the pagination
row filter and the viewport column clip, then hand the surviving
fragment to `TextWindow.write`.  (`if not rt` on line 1352 is always
false: `RichText` defines neither `__bool__` nor `__len__`, so every
instance is truthy.) -/
def _writeWindowBuffer (p : TextPad) (rt : RichText) : TextPad :=
  let delta : Int := match p.page with
    | some pg => ((pg.current_page : Int) - 1) * (pg.items_per_page : Int)
    | none => 0
  if rt.row < p.beginRow + delta ∨
      (p.page.any fun pg =>
        rt.row ≥ p.beginRow + delta + (pg.items_per_page : Int)) then
    p
  else
    let row := rt.row - p.beginRow - delta + 1
    if rt.column ≥ p.beginColumn then
      { p with window :=
          (p.window.write rt.text row (rt.column - p.beginColumn + 1) rt.attrs false).2 }
    else if (rt.text.length : Int) + rt.column > p.beginColumn then
      { p with window :=
          (p.window.write (rt.text.drop (p.beginColumn - rt.column).toNat)
            row 1 rt.attrs false).2 }
    else
      p

/-- `TextPad.flush()` (lines 1337-1346), with the external
`ScreenMethod.getSize()` read made an explicit argument `scr` (it is
only consulted in full-screen mode).  `self.window.flush()` on
line 1346 only emits escape sequences; it mutates no modelled field. -/
def flush (p : TextPad) (scr : Int × Int) : TextPad :=
  let p0 := if p.fullScreen then
      { p with window := (p.window.setSize scr.1 scr.2).2 } else p
  let p1 := { p0 with window := p0.window.newBuffer }
  p1.buffer.foldl (fun q rt => q._writeWindowBuffer rt) p1

/-- `TextPad.movePad(row, column)` (lines 1289-1294): move the viewport
then immediately flush. -/
def movePad (p : TextPad) (scr : Int × Int) (row column : Int) : TextPad :=
  (p.setDisplayPos row column).flush scr

end TextPad

end Textscreen

open Textscreen

/-- A concrete pagination state: `Pagination(5, 12)`, which has
`totalPages = ceil(12/5) = 3` and starts on page 1. -/
def pagEx : Pagination := Pagination.init 5 12

/-- `Pagination(5,12)` moved to its last page, `currentPage = 3`. -/
def pagExOnPage3 : Pagination := (pagEx.setCurrentPage 3).2

/-- A 10×40 window anchored at (1,1) on a 50×100 screen, cursor at home,
empty buffer. -/
def winEx : TextWindow :=
  { screen_rows := 50, screen_cols := 100, rows := 10, columns := 40,
    beginRow := 1, beginColumn := 1, cursorRow := 1, cursorColumn := 1,
    savedCursorRow := 1, savedCursorColumn := 1, buffer := [] }

/-- A 100×40 pad (line wrap on, no pagination, viewport at (1,1)) owning
the 10×40 window. -/
def padEx : TextPad :=
  { window := winEx, rows := 100, columns := 40, cursorRow := 1, cursorColumn := 1,
    savedCursorRow := 1, savedCursorColumn := 1, beginRow := 1, beginColumn := 1,
    page := none, max_rows := 0, items_per_page_fix := none, lineWrap := true,
    buffer := [], fullScreen := false }

/-- A deliberately tiny 1×3 pad (line wrap on): a wrapped write has
nowhere to put its overflow row. -/
def padTiny : TextPad :=
  { window := winEx, rows := 1, columns := 3, cursorRow := 1, cursorColumn := 1,
    savedCursorRow := 1, savedCursorColumn := 1, beginRow := 1, beginColumn := 1,
    page := none, max_rows := 0, items_per_page_fix := none, lineWrap := true,
    buffer := [], fullScreen := false }


/-- The 100×40 pad with its viewport moved right to start at pad
column 5. -/
def padClip : TextPad := { padEx with beginColumn := 5 }

/-- The 100×40 pad with pagination `itemsPerPage = 5, totalItems = 20`
attached, on page 1 (visible pad rows 1-5). -/
def padPageOne : TextPad := { padEx with page := some ⟨5, 20, 1, 4⟩ }

/-- The same pad on page 2 (visible pad rows 6-10). -/
def padPageTwo : TextPad := { padEx with page := some ⟨5, 20, 2, 4⟩ }

/-- A one-character fragment buffered at pad row 6, column 1. -/
def fragRow6 : RichText := ⟨['x'], [], 6, 1⟩

namespace Textscreen

/-- `TextWindow.moveCursor` never touches the fragment buffer. -/
lemma TextWindow.moveCursor_keepsBuffer (w : TextWindow) (r c n : Int) (lf : Bool) :
    (w.moveCursor r c n lf).buffer = w.buffer := by
  unfold TextWindow.moveCursor TextWindow.newLine
  dsimp only
  split_ifs <;> rfl

/-- `TextPad.moveCursor` never touches the pad buffer. -/
lemma TextPad.moveCursor_buffer (p : TextPad) (r c n : Int) (lf : Bool) :
    (p.moveCursor r c n lf).buffer = p.buffer := by
  unfold TextPad.moveCursor TextPad.newLine
  dsimp only
  split_ifs <;> rfl

/-- `TextPad.moveCursor` only moves the cursor: size, wrap flag and
buffer are untouched. -/
lemma TextPad.moveCursor_fields (p : TextPad) (r c n : Int) (lf : Bool) :
    (p.moveCursor r c n lf).rows = p.rows ∧
    (p.moveCursor r c n lf).columns = p.columns ∧
    (p.moveCursor r c n lf).lineWrap = p.lineWrap ∧
    (p.moveCursor r c n lf).buffer = p.buffer := by
  unfold TextPad.moveCursor TextPad.newLine
  dsimp only
  split_ifs <;> exact ⟨rfl, rfl, rfl, rfl⟩

/-- `TextPad._updateMaxRows` only touches `max_rows` and `page`. -/
lemma TextPad._updateMaxRows_fields (p : TextPad) (r : Int) :
    (p._updateMaxRows r).rows = p.rows ∧
    (p._updateMaxRows r).columns = p.columns ∧
    (p._updateMaxRows r).cursorRow = p.cursorRow ∧
    (p._updateMaxRows r).cursorColumn = p.cursorColumn ∧
    (p._updateMaxRows r).lineWrap = p.lineWrap ∧
    (p._updateMaxRows r).buffer = p.buffer := by
  unfold TextPad._updateMaxRows
  split
  · split <;> exact ⟨rfl, rfl, rfl, rfl, rfl, rfl⟩
  · exact ⟨rfl, rfl, rfl, rfl, rfl, rfl⟩

/-- `TextPad._updateMaxRows` never touches the pad buffer. -/
lemma TextPad._updateMaxRows_buffer (p : TextPad) (r : Int) :
    (p._updateMaxRows r).buffer = p.buffer := by
  unfold TextPad._updateMaxRows
  split
  · split <;> rfl
  · rfl

/-- The overflow behaviour of `TextPad.moveCursor`: placing `n`
characters from a legal position `(r, c)` with `c + n = columns + 1`
(the written chunk exactly fills the row) sends the cursor to
`(r + 1, 1)`. -/
lemma TextPad.moveCursor_wrap (p : TextPad) (r c n : Int)
    (h1 : 0 < r) (h2 : r ≤ p.rows) (h3 : 0 < c) (h4 : c ≤ p.columns)
    (hn : c + n = p.columns + 1) (hn1 : 1 ≤ n) :
    p.moveCursor r c n false = { p with cursorRow := r + 1, cursorColumn := 1 } := by
  obtain ⟨win, rows, cols, cr, cc, scr, scc, br, bc, pg, mr, ipf, lw, buf, fs⟩ := p
  dsimp only at *
  unfold TextPad.moveCursor TextPad.newLine
  dsimp only
  rw [if_pos (show (0:Int) < r ∧ r ≤ rows from ⟨h1, h2⟩)]
  dsimp only
  rw [if_pos (show (0:Int) < c ∧ c ≤ cols from ⟨h3, h4⟩)]
  dsimp only
  rw [if_pos (show n ≠ 0 by omega)]
  dsimp only
  rw [if_neg (show ¬(c + n < 1) by omega)]
  dsimp only
  rw [if_pos (Or.inl (show c + n > cols by omega))]

/-- `TextPad.write` with a resolved anchor beyond the pad fails without
mutating anything. -/
lemma TextPad.write_oob (p : TextPad) (text : List Char) (row col : Int)
    (attrs : List Int) (lf : Bool)
    (h : (if 0 < row then row else p.cursorRow) > p.rows ∨
      (if 0 < col then col else p.cursorColumn) > p.columns) :
    p.write text row col attrs lf = (false, p) := by
  rw [TextPad.write]
  dsimp only
  rw [dif_pos h]

/-- `TextPad.write` when the text fits on its row: one fragment holding
the whole text is appended. -/
lemma TextPad.write_nowrap (p : TextPad) (text : List Char) (row col rr rc : Int)
    (attrs : List Int)
    (hrr : rr = if 0 < row then row else p.cursorRow)
    (hrc : rc = if 0 < col then col else p.cursorColumn)
    (h2 : rr ≤ p.rows) (h4 : rc ≤ p.columns)
    (hfit : (text.length : Int) ≤ p.columns - rc + 1) :
    (p.write text row col attrs false).1 = true ∧
    (p.write text row col attrs false).2.buffer =
      p.buffer ++ [⟨text, attrs, rr, rc⟩] := by
  rw [TextPad.write]
  dsimp only
  rw [← hrr, ← hrc]
  rw [dif_neg (by omega)]
  try dsimp only
  rw [min_eq_left hfit]
  rw [dif_neg (fun hh => absurd hh.2 (by omega))]
  refine ⟨rfl, ?_⟩
  simp [TextPad.moveCursor_buffer, TextPad._updateMaxRows_buffer]

/-- `TextPad.write` in the wrap case: one unfolding of the recursion.
The first `columns - rc + 1` characters are buffered at `(rr, rc)`, the
cursor moves, and the remainder is written by the recursive call whose
boolean result is discarded. -/
lemma TextPad.write_wrap_step (p : TextPad) (text : List Char) (row col rr rc : Int)
    (attrs : List Int)
    (hrr : rr = if 0 < row then row else p.cursorRow)
    (hrc : rc = if 0 < col then col else p.cursorColumn)
    (h2 : rr ≤ p.rows) (h4 : rc ≤ p.columns)
    (hlw : p.lineWrap = true)
    (hover : (text.length : Int) > p.columns - rc + 1) :
    p.write text row col attrs false =
      (true,
        (({ p._updateMaxRows rr with
            buffer := (p._updateMaxRows rr).buffer ++
              [RichText.mk (text.take (p.columns - rc + 1).toNat) attrs rr rc] }.moveCursor
              rr rc (p.columns - rc + 1) false).write
          (text.drop (p.columns - rc + 1).toNat) 0 0 attrs false).2) := by
  rw [TextPad.write]
  dsimp only
  rw [← hrr, ← hrc]
  rw [dif_neg (by omega)]
  try dsimp only
  rw [min_eq_right (by omega)]
  rw [dif_pos ⟨hlw, by omega⟩]

/-- The full wrap law for `TextPad.write`, by strong induction on the
text length: when line wrap is on, the resolved anchor is legal and the
text fits in the pad capacity below the anchor, the write succeeds and
appends a run of fragments — the first at the anchor, each further one
on the next row at column 1 — whose concatenation is the whole text. -/
lemma TextPad.write_wrap_frags :
    ∀ (n : Nat) (text : List Char) (p : TextPad) (row col rr rc : Int)
      (attrs : List Int),
      text.length ≤ n →
      rr = (if 0 < row then row else p.cursorRow) →
      rc = (if 0 < col then col else p.cursorColumn) →
      p.lineWrap = true →
      1 ≤ rr → rr ≤ p.rows → 1 ≤ rc → rc ≤ p.columns →
      (text.length : Int) ≤ (p.rows - rr) * p.columns + (p.columns - rc + 1) →
      ∃ frags : List RichText,
        (p.write text row col attrs false).1 = true ∧
        (p.write text row col attrs false).2.buffer = p.buffer ++ frags ∧
        (frags.map RichText.text).flatten = text ∧
        1 ≤ frags.length ∧
        (∀ i (hi : i < frags.length),
          (frags.get ⟨i, hi⟩).row = rr + i ∧
          (frags.get ⟨i, hi⟩).column = if i = 0 then rc else 1) ∧
        (∀ h0 : 0 < frags.length,
          ((frags.get ⟨0, h0⟩).text).length =
            min text.length (p.columns - rc + 1).toNat) := by
  intro n
  induction n with
  | zero =>
    intro text p row col rr rc attrs hlen hrr hrc hlw hb1 hb2 hb3 hb4 hfit
    have htext : text = [] := List.length_eq_zero.mp (Nat.le_zero.mp hlen)
    subst htext
    obtain ⟨h1, h2⟩ := TextPad.write_nowrap p [] row col rr rc attrs hrr hrc hb2 hb4
      (by simp; omega)
    refine ⟨[⟨[], attrs, rr, rc⟩], h1, h2, by simp, by simp, ?_, ?_⟩
    · intro i hi
      replace hi : i = 0 := by simpa using hi
      subst hi
      simp
    · intro h0
      simp
  | succ n ih =>
    intro text p row col rr rc attrs hlen hrr hrc hlw hb1 hb2 hb3 hb4 hfit
    by_cases hw : (text.length : Int) ≤ p.columns - rc + 1
    · obtain ⟨h1, h2⟩ := TextPad.write_nowrap p text row col rr rc attrs hrr hrc hb2 hb4 hw
      refine ⟨[⟨text, attrs, rr, rc⟩], h1, h2, by simp, by simp, ?_, ?_⟩
      · intro i hi
        replace hi : i = 0 := by simpa using hi
        subst hi
        simp
      · intro h0
        simp
        omega
    · push_neg at hw
      have hcols : 1 ≤ p.columns := by omega
      have hw0 : (1 : Int) ≤ p.columns - rc + 1 := by omega
      have hprod : 0 < (p.rows - rr) * p.columns := by nlinarith
      have hrow_lt : rr < p.rows := by nlinarith
      rw [TextPad.write_wrap_step p text row col rr rc attrs hrr hrc hb2 hb4 hlw hw]
      have hmc : ({ p._updateMaxRows rr with
            buffer := (p._updateMaxRows rr).buffer ++
              [RichText.mk (text.take (p.columns - rc + 1).toNat) attrs rr rc] }.moveCursor
              rr rc (p.columns - rc + 1) false) =
          { p._updateMaxRows rr with
            buffer := (p._updateMaxRows rr).buffer ++
              [RichText.mk (text.take (p.columns - rc + 1).toNat) attrs rr rc]
            cursorRow := rr + 1
            cursorColumn := 1 } := by
        apply TextPad.moveCursor_wrap _ rr rc (p.columns - rc + 1) (by omega)
        · show rr ≤ (p._updateMaxRows rr).rows
          rw [(TextPad._updateMaxRows_fields p rr).1]
          exact hb2
        · omega
        · show rc ≤ (p._updateMaxRows rr).columns
          rw [(TextPad._updateMaxRows_fields p rr).2.1]
          exact hb4
        · show rc + (p.columns - rc + 1) = (p._updateMaxRows rr).columns + 1
          rw [(TextPad._updateMaxRows_fields p rr).2.1]
          ring
        · omega
      rw [hmc]
      obtain ⟨frags', hf1, hf2, hf3, hf4, hf5, hf6⟩ :=
        ih (text.drop (p.columns - rc + 1).toNat)
          { p._updateMaxRows rr with
            buffer := (p._updateMaxRows rr).buffer ++
              [RichText.mk (text.take (p.columns - rc + 1).toNat) attrs rr rc]
            cursorRow := rr + 1
            cursorColumn := 1 }
          0 0 (rr + 1) 1 attrs
          (by simp [List.length_drop]; omega)
          (by norm_num)
          (by norm_num)
          (by show (p._updateMaxRows rr).lineWrap = true
              rw [(TextPad._updateMaxRows_fields p rr).2.2.2.2.1]
              exact hlw)
          (by omega)
          (by show rr + 1 ≤ (p._updateMaxRows rr).rows
              rw [(TextPad._updateMaxRows_fields p rr).1]
              omega)
          (by omega)
          (by show (1 : Int) ≤ (p._updateMaxRows rr).columns
              rw [(TextPad._updateMaxRows_fields p rr).2.1]
              omega)
          (by show ((text.drop (p.columns - rc + 1).toNat).length : Int) ≤
                ((p._updateMaxRows rr).rows - (rr + 1)) * (p._updateMaxRows rr).columns +
                  ((p._updateMaxRows rr).columns - 1 + 1)
              rw [(TextPad._updateMaxRows_fields p rr).1,
                (TextPad._updateMaxRows_fields p rr).2.1]
              have hre : (p.rows - (rr + 1)) * p.columns + (p.columns - 1 + 1) =
                  (p.rows - rr) * p.columns := by ring
              rw [hre]
              rw [List.length_drop]
              generalize hA : (p.rows - rr) * p.columns = A at hfit ⊢
              omega)
      refine ⟨⟨text.take (p.columns - rc + 1).toNat, attrs, rr, rc⟩ :: frags',
        rfl, ?_, ?_, by simp, ?_, ?_⟩
      · dsimp only
        rw [hf2]
        dsimp only
        rw [TextPad._updateMaxRows_buffer]
        simp
      · rw [List.map_cons, List.flatten_cons]
        dsimp only
        rw [hf3, List.take_append_drop]
      · intro i hi
        cases i with
        | zero => simp
        | succ j =>
          have hj : j < frags'.length := by
            simpa using hi
          constructor
          · show (frags'.get ⟨j, hj⟩).row = rr + ↑(j + 1)
            rw [(hf5 j hj).1]
            push_cast
            ring
          · show (frags'.get ⟨j, hj⟩).column = if j + 1 = 0 then rc else 1
            rw [(hf5 j hj).2]
            simp
      · intro h0
        show (text.take (p.columns - rc + 1).toNat).length = _
        rw [List.length_take]
        omega

/-- `TextPad._writeWindowBuffer` only touches the owned window: the
viewport and pad size are untouched. -/
lemma TextPad._writeWindowBuffer_begin (p : TextPad) (rt : RichText) :
    (p._writeWindowBuffer rt).beginRow = p.beginRow ∧
    (p._writeWindowBuffer rt).beginColumn = p.beginColumn ∧
    (p._writeWindowBuffer rt).rows = p.rows ∧
    (p._writeWindowBuffer rt).columns = p.columns := by
  unfold TextPad._writeWindowBuffer
  dsimp only
  split_ifs <;> exact ⟨rfl, rfl, rfl, rfl⟩

/-- Folding `_writeWindowBuffer` over any fragment list preserves the
viewport. -/
lemma TextPad.foldl_wwb_begin :
    ∀ (l : List RichText) (q : TextPad),
      (l.foldl (fun a rt => a._writeWindowBuffer rt) q).beginRow = q.beginRow ∧
      (l.foldl (fun a rt => a._writeWindowBuffer rt) q).beginColumn = q.beginColumn := by
  intro l
  induction l with
  | nil => intro q; exact ⟨rfl, rfl⟩
  | cons rt l ih =>
    intro q
    rw [List.foldl_cons]
    obtain ⟨hA, hB⟩ := ih (q._writeWindowBuffer rt)
    obtain ⟨hC, hD, _, _⟩ := TextPad._writeWindowBuffer_begin q rt
    exact ⟨hA.trans hC, hB.trans hD⟩

/-- `TextPad.flush` never moves the viewport. -/
lemma TextPad.flush_begin (p : TextPad) (scr : Int × Int) :
    (p.flush scr).beginRow = p.beginRow ∧
    (p.flush scr).beginColumn = p.beginColumn := by
  unfold TextPad.flush
  dsimp only
  constructor
  · rw [(TextPad.foldl_wwb_begin _ _).1]
    split_ifs <;> rfl
  · rw [(TextPad.foldl_wwb_begin _ _).2]
    split_ifs <;> rfl

end Textscreen

/-- C5: `setCurrentPage(n)` succeeds iff `n ≥ 1` and
(`totalItems = 0` or `n ≤ totalPages`); on failure it returns `false` and
leaves every field of the state unchanged. -/
theorem setCurrentPage_succeeds_iff (p : Pagination) (page : Int) :
    ((p.setCurrentPage page).1 = true ↔
      1 ≤ page ∧ (p.total_items = 0 ∨ page ≤ (p.total_pages : Int))) ∧
    ((p.setCurrentPage page).1 = false → (p.setCurrentPage page).2 = p) := by
  unfold Pagination.setCurrentPage
  by_cases h : 0 < page ∧ (p.total_items = 0 ∨ page ≤ (p.total_pages : Int))
  · simp [h]
    omega
  · simp [h]
    omega

/-- Witness for C5 at a concrete failing input: `Pagination(5,12)` with
`totalPages = 3` rejects page `4` and is left unchanged. -/
theorem setCurrentPage_succeeds_iff_witness :
    (pagEx.setCurrentPage 4).1 = false ∧ (pagEx.setCurrentPage 4).2 = pagEx := by
  have h := setCurrentPage_succeeds_iff pagEx 4
  exact ⟨by decide, h.2 (by decide)⟩

/-- C6 (code bug): the source resets `currentPage` when
`current_page < total_pages` — the comparison is inverted with respect to
the documented rule "reset when the current page now exceeds the new
total".  Concretely, from `Pagination(5,12)` on page 3:
* `setTotalItems(30, False)` makes `totalPages = 6`; page 3 is still
  valid, yet the code resets `currentPage` to 1;
* `setTotalItems(10, False)` makes `totalPages = 2`; page 3 now exceeds
  the total, yet the code keeps `currentPage = 3` (violating the
  documented invariant `currentPage ≤ totalPages`);
* `setItemsPerPage(2, False)` makes `totalPages = 6`; page 3 is still
  valid, yet the code resets `currentPage` to 1. -/
theorem setTotalItems_reset_inverted :
    ((pagExOnPage3.setTotalItems 30 false).2.total_pages = 6 ∧
      (pagExOnPage3.setTotalItems 30 false).2.current_page = 1) ∧
    ((pagExOnPage3.setTotalItems 10 false).2.total_pages = 2 ∧
      (pagExOnPage3.setTotalItems 10 false).2.current_page = 3) ∧
    ((pagExOnPage3.setItemsPerPage 2 false).2.total_pages = 6 ∧
      (pagExOnPage3.setItemsPerPage 2 false).2.current_page = 1) := by
  decide

/-- C7 (code bug): `previousPage()` reads `self._currentPage`, an
attribute that does not exist, so it raises `AttributeError` on every
call instead of returning the previous page number or the sentinel `0`.
Concretely for `Pagination(10, 25)` (on page 1, where the claim demands
the sentinel `0`), while `nextPage()` does behave as claimed
(successive calls from pages 1, 2, 3 yield 2, 3, 0). -/
theorem previousPage_raises :
    (Pagination.init 10 25).previousPage =
      Except.error "AttributeError: Pagination object has no attribute _currentPage" ∧
    (Pagination.init 10 25).nextPage = 2 ∧
    ((Pagination.init 10 25).setCurrentPage 2).2.nextPage = 3 ∧
    ((Pagination.init 10 25).setCurrentPage 3).2.nextPage = 0 :=
  ⟨rfl, by decide⟩

/-- C4: `Window.write` resolves `row=0` to the cursor row and `column=0`
to the cursor column; with the resolved anchor inside the window it
succeeds and buffers exactly the first
`min(len(text), columns - resolvedColumn + 1)` characters (truncated,
never wrapped); with the resolved anchor beyond the window it returns
`false` and mutates nothing. -/
theorem window_write_spec (w : TextWindow) (text : List Char) (row column : Int)
    (attrs : List Int) (lf : Bool) :
    ((if 0 < row then row else w.cursorRow) ≤ w.rows ∧
        (if 0 < column then column else w.cursorColumn) ≤ w.columns →
      (w.write text row column attrs lf).1 = true ∧
      (w.write text row column attrs lf).2.buffer =
        w.buffer ++
          [⟨text.take (min (text.length : Int)
              (w.columns - (if 0 < column then column else w.cursorColumn) + 1)).toNat,
            attrs, (if 0 < row then row else w.cursorRow),
            (if 0 < column then column else w.cursorColumn)⟩]) ∧
    ((if 0 < row then row else w.cursorRow) > w.rows ∨
        (if 0 < column then column else w.cursorColumn) > w.columns →
      w.write text row column attrs lf = (false, w)) := by
  unfold TextWindow.write
  constructor
  · intro hb
    rw [if_neg (by omega)]
    dsimp only
    rw [TextWindow.moveCursor_keepsBuffer]
    exact ⟨rfl, rfl⟩
  · intro hb
    rw [if_pos (by omega)]

/-- Witness for C4: writing `"hi"` at (2,3) in the 10×40 window succeeds
and buffers both characters at (2,3). -/
theorem window_write_spec_witness :
    (winEx.write ['h', 'i'] 2 3 [] false).1 = true ∧
    (winEx.write ['h', 'i'] 2 3 [] false).2.buffer =
      winEx.buffer ++ [⟨['h', 'i'], [], 2, 3⟩] := by
  have h := (window_write_spec winEx ['h', 'i'] 2 3 [] false).1 ⟨by decide, by decide⟩
  refine ⟨h.1, ?_⟩
  rw [h.2]
  decide

/-- C8 (code bug): the "never raises" contract fails: `pageItems()`
evaluates `self._current_page < self._total_page` — `_total_page` is not
an attribute of the class — so every call raises `AttributeError`
(before either `or` branch could short-circuit), and `previousPage()`
likewise raises on every call; shown here on every reachable state, not
just a concrete one. -/
theorem pageItems_raises (p : Pagination) :
    p.pageItems =
      Except.error "AttributeError: Pagination object has no attribute _total_page" ∧
    p.previousPage =
      Except.error "AttributeError: Pagination object has no attribute _currentPage" := by
  exact ⟨rfl, rfl⟩

/-- C1 (amended): with line wrap on, writing a string of length
`L > columns - col + 1` at a legal pad anchor `(row, col)` — *provided
the text fits in the pad capacity below the anchor,
`L ≤ (rows - row)·columns + (columns - col + 1)`* — succeeds and buffers
fragments whose concatenation, read row-by-row, is the original string;
the first fragment sits at `(row, col)` and every overflow fragment
starts on the next pad row at column 1.  (Without the capacity proviso
the overflow is silently dropped — see the counterexample and C9.) -/
theorem pad_wrap_law (p : TextPad) (text : List Char) (row col : Int)
    (attrs : List Int)
    (hlw : p.lineWrap = true)
    (h1 : 1 ≤ row) (h2 : row ≤ p.rows) (h3 : 1 ≤ col) (h4 : col ≤ p.columns)
    (hL : (text.length : Int) > p.columns - col + 1)
    (hfit : (text.length : Int) ≤ (p.rows - row) * p.columns + (p.columns - col + 1)) :
    (p.write text row col attrs false).1 = true ∧
    ∃ frags : List RichText,
      (p.write text row col attrs false).2.buffer = p.buffer ++ frags ∧
      (frags.map RichText.text).flatten = text ∧
      2 ≤ frags.length ∧
      (∀ i (hi : i < frags.length),
        (frags.get ⟨i, hi⟩).row = row + i ∧
        (frags.get ⟨i, hi⟩).column = if i = 0 then col else 1) := by
  obtain ⟨frags, hf1, hf2, hf3, hf4, hf5, hf6⟩ :=
    TextPad.write_wrap_frags text.length text p row col row col attrs le_rfl
      (by rw [if_pos (by omega)]) (by rw [if_pos (by omega)]) hlw h1 h2 h3 h4 hfit
  refine ⟨hf1, frags, hf2, hf3, ?_, hf5⟩
  rcases frags with _ | ⟨f, rest⟩
  · simp at hf4
  rcases rest with _ | ⟨g, rest2⟩
  · exfalso
    have hlen := congrArg List.length hf3
    simp at hlen
    have hhead := hf6 (by simp)
    simp at hhead
    omega
  · simp

/-- Witness for C1: on the 100×40 pad, 50 copies of `'A'` written at
(1,1) wrap into fragments that concatenate back to the input, the first
at (1,1) and each overflow fragment at the start of the next row. -/
theorem pad_wrap_law_witness :
    (padEx.write (List.replicate 50 'A') 1 1 [] false).1 = true ∧
    ∃ frags : List RichText,
      (padEx.write (List.replicate 50 'A') 1 1 [] false).2.buffer =
        padEx.buffer ++ frags ∧
      (frags.map RichText.text).flatten = List.replicate 50 'A' ∧
      2 ≤ frags.length ∧
      (∀ i (hi : i < frags.length),
        (frags.get ⟨i, hi⟩).row = 1 + i ∧
        (frags.get ⟨i, hi⟩).column = if i = 0 then 1 else 1) :=
  pad_wrap_law padEx (List.replicate 50 'A') 1 1 [] (by decide) (by decide)
    (by decide) (by decide) (by decide) (by decide) (by decide)

/-- Counterexample to C1 as frozen: on the 1×3 pad (line wrap on), the
5-character write `"ABCDE"` at (1,1) satisfies every hypothesis of the
claim, yet no fragment list appended by the write concatenates back to
`"ABCDE"` — only `"ABC"` is buffered (the overflow row does not exist,
the recursive write fails and its result is discarded). -/
theorem pad_wrap_law_cex :
    padTiny.lineWrap = true ∧
    (1 : Int) ≤ padTiny.rows ∧ (1 : Int) ≤ padTiny.columns ∧
    ((['A', 'B', 'C', 'D', 'E'] : List Char).length : Int) >
      padTiny.columns - 1 + 1 ∧
    ¬ ∃ frags : List RichText,
        (padTiny.write ['A', 'B', 'C', 'D', 'E'] 1 1 [] false).2.buffer =
          padTiny.buffer ++ frags ∧
        (frags.map RichText.text).flatten = ['A', 'B', 'C', 'D', 'E'] := by
  refine ⟨by decide, by decide, by decide, by decide, ?_⟩
  have hb : (padTiny.write ['A', 'B', 'C', 'D', 'E'] 1 1 [] false).2.buffer =
      [⟨['A', 'B', 'C'], [], 1, 1⟩] := by
    simp [TextPad.write, TextPad._updateMaxRows, TextPad.moveCursor,
      TextPad.newLine, padTiny, winEx]
  rintro ⟨frags, hfr, hfl⟩
  rw [hb] at hfr
  have hfr2 : frags = [⟨['A', 'B', 'C'], [], 1, 1⟩] := by
    simpa [padTiny] using hfr.symm
  subst hfr2
  simp at hfl

/-- C9: when a wrapped write starts on the last pad row, the overflow
resolves to row `rows + 1`, the recursive write fails, its result is
discarded, and the outer `write` still returns `True` with only the
first-row fragment buffered: the overflow characters are silently
absent. -/
theorem pad_write_overflow_dropped (p : TextPad) (text : List Char)
    (col : Int) (attrs : List Int)
    (hlw : p.lineWrap = true)
    (h1 : 1 ≤ p.rows)
    (h3 : 1 ≤ col) (h4 : col ≤ p.columns)
    (hL : (text.length : Int) > p.columns - col + 1) :
    (p.write text p.rows col attrs false).1 = true ∧
    (p.write text p.rows col attrs false).2.buffer =
      p.buffer ++
        [⟨text.take (p.columns - col + 1).toNat, attrs, p.rows, col⟩] := by
  rw [TextPad.write_wrap_step p text p.rows col p.rows col attrs
    (by rw [if_pos (by omega)]) (by rw [if_pos (by omega)]) le_rfl h4 hlw hL]
  have hmc : ({ p._updateMaxRows p.rows with
        buffer := (p._updateMaxRows p.rows).buffer ++
          [RichText.mk (text.take (p.columns - col + 1).toNat) attrs p.rows col] }.moveCursor
          p.rows col (p.columns - col + 1) false) =
      { p._updateMaxRows p.rows with
        buffer := (p._updateMaxRows p.rows).buffer ++
          [RichText.mk (text.take (p.columns - col + 1).toNat) attrs p.rows col]
        cursorRow := p.rows + 1
        cursorColumn := 1 } := by
    apply TextPad.moveCursor_wrap _ p.rows col (p.columns - col + 1) (by omega)
    · show p.rows ≤ (p._updateMaxRows p.rows).rows
      rw [(TextPad._updateMaxRows_fields p p.rows).1]
    · omega
    · show col ≤ (p._updateMaxRows p.rows).columns
      rw [(TextPad._updateMaxRows_fields p p.rows).2.1]
      exact h4
    · show col + (p.columns - col + 1) = (p._updateMaxRows p.rows).columns + 1
      rw [(TextPad._updateMaxRows_fields p p.rows).2.1]
      ring
    · omega
  rw [hmc]
  rw [TextPad.write_oob _ _ 0 0 attrs false (by
    refine Or.inl ?_
    rw [if_neg (show ¬((0 : Int) < 0) by omega)]
    show p.rows + 1 > (p._updateMaxRows p.rows).rows
    rw [(TextPad._updateMaxRows_fields p p.rows).1]
    omega)]
  refine ⟨rfl, ?_⟩
  dsimp only
  rw [TextPad._updateMaxRows_buffer]

/-- Witness for C9: on the 1×3 pad, `"ABCDE"` written with wrap at the
last (only) row returns `True` yet buffers just `"ABC"`. -/
theorem pad_write_overflow_dropped_witness :
    (padTiny.write ['A', 'B', 'C', 'D', 'E'] padTiny.rows 1 [] false).1 = true ∧
    (padTiny.write ['A', 'B', 'C', 'D', 'E'] padTiny.rows 1 [] false).2.buffer =
      padTiny.buffer ++
        [⟨(['A', 'B', 'C', 'D', 'E'] : List Char).take
            (padTiny.columns - 1 + 1).toNat, [], padTiny.rows, 1⟩] :=
  pad_write_overflow_dropped padTiny ['A', 'B', 'C', 'D', 'E'] 1 []
    (by decide) (by decide) (by decide) (by decide) (by decide)

/-- C2 (amended): against viewport start column `B = beginColumn`, a
fragment at column `C` with text length `N` that passed the row filter
is handed to `Window.write` iff `C ≥ B ∨ C + N > B` — i.e. iff
`C + N > B` *or the fragment is empty and sits exactly at or right of
the viewport start* — with visible slice `text[max(0, B-C):]`
(`List.drop (B-C).toNat`) re-anchored at window-local column
`max(1, C-B+1)`; a fragment strictly left of the viewport whose text
ends at or before `B` is dropped.  (The frozen claim's "iff C + N > B"
fails only for an empty fragment at `C = B`, see the
counterexample.) -/
theorem fragment_column_clip (p : TextPad) (rt : RichText) (delta : Int)
    (hdelta : delta = (match p.page with
      | some pg => ((pg.current_page : Int) - 1) * (pg.items_per_page : Int)
      | none => 0))
    (hlo : p.beginRow + delta ≤ rt.row)
    (hhi : ∀ pg, p.page = some pg →
      rt.row < p.beginRow + delta + (pg.items_per_page : Int)) :
    (rt.column ≥ p.beginColumn ∨
        rt.column + (rt.text.length : Int) > p.beginColumn →
      p._writeWindowBuffer rt =
        { p with window :=
            (p.window.write (rt.text.drop (p.beginColumn - rt.column).toNat)
              (rt.row - p.beginRow - delta + 1)
              (max 1 (rt.column - p.beginColumn + 1)) rt.attrs false).2 }) ∧
    (rt.column < p.beginColumn ∧
        rt.column + (rt.text.length : Int) ≤ p.beginColumn →
      p._writeWindowBuffer rt = p) := by
  have hrow : ¬(rt.row < p.beginRow + delta ∨
      (p.page.any fun pg =>
        rt.row ≥ p.beginRow + delta + (pg.items_per_page : Int)) = true) := by
    rcases hp : p.page with _ | pg
    · simp [Option.any]
      omega
    · have := hhi pg hp
      simp [Option.any]
      omega
  unfold TextPad._writeWindowBuffer
  rw [← hdelta]
  rw [if_neg hrow]
  constructor
  · intro hvis
    by_cases hc : rt.column ≥ p.beginColumn
    · rw [if_pos hc]
      rw [show (p.beginColumn - rt.column).toNat = 0 from
        Int.toNat_of_nonpos (by omega)]
      rw [List.drop_zero]
      rw [show max 1 (rt.column - p.beginColumn + 1) = rt.column - p.beginColumn + 1 from
        max_eq_right (by omega)]
    · push_neg at hc
      have hvis2 : rt.column + (rt.text.length : Int) > p.beginColumn := by
        rcases hvis with h | h
        · omega
        · exact h
      rw [if_neg (by omega), if_pos (by omega)]
      rw [show max 1 (rt.column - p.beginColumn + 1) = 1 from
        max_eq_left (by omega)]
  · rintro ⟨hc, hn⟩
    rw [if_neg (by omega), if_neg (by omega)]

/-- Witness for C2: viewport at column 5, fragment `"hello"` at
column 3 straddles the left edge (`3 + 5 > 5`): it is handed to the
window clipped by `5 - 3 = 2` characters (to `"llo"`), re-anchored at
window column 1. -/
theorem fragment_column_clip_witness :
    padClip._writeWindowBuffer ⟨['h', 'e', 'l', 'l', 'o'], [], 2, 3⟩ =
      { padClip with window :=
          (padClip.window.write
            ((['h', 'e', 'l', 'l', 'o'] : List Char).drop
              (padClip.beginColumn - 3).toNat)
            (2 - padClip.beginRow - 0 + 1)
            (max 1 (3 - padClip.beginColumn + 1)) [] false).2 } :=
  (fragment_column_clip padClip ⟨['h', 'e', 'l', 'l', 'o'], [], 2, 3⟩ 0
    (by decide) (by decide)
    (fun pg h => by simp [padClip, padEx] at h)).1 (by decide)

/-- Counterexample to C2 as frozen: the empty fragment at column
`C = 1 = beginColumn` has `C + N = beginColumn`, not `> beginColumn`,
so by the claim it should be dropped — but the code's `column ≥
beginColumn` branch hands it to the window, whose buffer grows: the
state changes. -/
theorem fragment_column_clip_cex :
    (1 : Int) + (((⟨[], [], 1, 1⟩ : RichText).text.length : Int)) ≤ padEx.beginColumn ∧
    padEx._writeWindowBuffer ⟨[], [], 1, 1⟩ ≠ padEx := by
  constructor
  · decide
  · decide

/-- C3: with Pagination attached and `delta = (currentPage-1) ·
itemsPerPage`, a buffered fragment at pad row `R` is dropped by the
flush filter unless `beginRow + delta ≤ R < beginRow + delta +
itemsPerPage`, in which case it is written at window-local row
`R - beginRow - delta + 1` (through the column-clip cases); and — shown
on the concrete paginated pad — changing only the current page changes
whether a previously buffered fragment is rendered by the next flush. -/
theorem pagination_visibility (p : TextPad) (pg : Pagination) (rt : RichText)
    (hp : p.page = some pg) :
    ((rt.row < p.beginRow + ((pg.current_page : Int) - 1) * (pg.items_per_page : Int) ∨
        rt.row ≥ p.beginRow + ((pg.current_page : Int) - 1) * (pg.items_per_page : Int) +
          (pg.items_per_page : Int)) →
      p._writeWindowBuffer rt = p) ∧
    (p.beginRow + ((pg.current_page : Int) - 1) * (pg.items_per_page : Int) ≤ rt.row →
      rt.row < p.beginRow + ((pg.current_page : Int) - 1) * (pg.items_per_page : Int) +
          (pg.items_per_page : Int) →
      p._writeWindowBuffer rt =
        (if rt.column ≥ p.beginColumn then
          { p with window :=
              (p.window.write rt.text
                (rt.row - p.beginRow -
                  ((pg.current_page : Int) - 1) * (pg.items_per_page : Int) + 1)
                (rt.column - p.beginColumn + 1) rt.attrs false).2 }
         else if (rt.text.length : Int) + rt.column > p.beginColumn then
          { p with window :=
              (p.window.write (rt.text.drop (p.beginColumn - rt.column).toNat)
                (rt.row - p.beginRow -
                  ((pg.current_page : Int) - 1) * (pg.items_per_page : Int) + 1)
                1 rt.attrs false).2 }
         else p)) ∧
    (padPageOne._writeWindowBuffer fragRow6 = padPageOne ∧
      padPageTwo._writeWindowBuffer fragRow6 ≠ padPageTwo ∧
      padPageTwo._writeWindowBuffer fragRow6 =
        { padPageTwo with window :=
            (padPageTwo.window.write ['x'] 1 1 [] false).2 }) := by
  refine ⟨?_, ?_, by decide, by decide, by decide⟩
  · intro hout
    unfold TextPad._writeWindowBuffer
    rw [hp]
    dsimp only
    rw [if_pos (by
      simp [Option.any]
      omega)]
  · intro hlo hhi
    unfold TextPad._writeWindowBuffer
    rw [hp]
    dsimp only
    rw [if_neg (by
      simp [Option.any]
      omega)]

/-- Witness for C3: the fragment at pad row 6 is invisible on page 1
(rows 1-5) and rendered on page 2 (rows 6-10) at window-local row
`6 - 1 - 5 + 1 = 1` — same buffer, different page, different flush. -/
theorem pagination_visibility_witness :
    padPageOne._writeWindowBuffer fragRow6 = padPageOne ∧
    padPageTwo._writeWindowBuffer fragRow6 ≠ padPageTwo ∧
    padPageTwo._writeWindowBuffer fragRow6 =
      { padPageTwo with window :=
          (padPageTwo.window.write ['x'] 1 1 [] false).2 } :=
  (pagination_visibility padPageTwo ⟨5, 20, 2, 4⟩ fragRow6 rfl).2.2

/-- C10: `setDisplayPos` (the viewport move behind `movePad`) has no
failure path — its Python body returns `None` and the embedding is a
total function into `TextPad` — and it silently replaces an
out-of-range row or column by 1, so on any pad with positive size the
viewport always lands back inside the pad; `movePad` (which follows the
move with a flush) leaves the same viewport. -/
theorem setDisplayPos_clamps (p : TextPad) (row column : Int) (scr : Int × Int)
    (hr : 1 ≤ p.rows) (hc : 1 ≤ p.columns) :
    (p.setDisplayPos row column).beginRow =
      (if 0 < row ∧ row ≤ p.rows then row else 1) ∧
    (p.setDisplayPos row column).beginColumn =
      (if 0 < column ∧ column ≤ p.columns then column else 1) ∧
    1 ≤ (p.setDisplayPos row column).beginRow ∧
    (p.setDisplayPos row column).beginRow ≤ p.rows ∧
    1 ≤ (p.setDisplayPos row column).beginColumn ∧
    (p.setDisplayPos row column).beginColumn ≤ p.columns ∧
    (p.movePad scr row column).beginRow = (p.setDisplayPos row column).beginRow ∧
    (p.movePad scr row column).beginColumn = (p.setDisplayPos row column).beginColumn := by
  have hfields : (p.setDisplayPos row column).beginRow =
      (if 0 < row ∧ row ≤ p.rows then row else 1) ∧
      (p.setDisplayPos row column).beginColumn =
      (if 0 < column ∧ column ≤ p.columns then column else 1) := by
    unfold TextPad.setDisplayPos
    dsimp only
    split <;> exact ⟨rfl, rfl⟩
  obtain ⟨h1, h2⟩ := hfields
  obtain ⟨hm1, hm2⟩ := TextPad.flush_begin (p.setDisplayPos row column) scr
  refine ⟨h1, h2, ?_, ?_, ?_, ?_, hm1, hm2⟩
  · rw [h1]; split_ifs <;> omega
  · rw [h1]; split_ifs <;> omega
  · rw [h2]; split_ifs <;> omega
  · rw [h2]; split_ifs <;> omega

/-- Witness for C10: `setDisplayPos(500, 0)` on the 100×40 pad — row
500 is beyond the pad and column 0 is below 1 — silently clamps the
viewport to (1,1), and `movePad` agrees. -/
theorem setDisplayPos_clamps_witness :
    (padEx.setDisplayPos 500 0).beginRow =
      (if (0 : Int) < 500 ∧ (500 : Int) ≤ padEx.rows then 500 else 1) ∧
    (padEx.setDisplayPos 500 0).beginColumn =
      (if (0 : Int) < 0 ∧ (0 : Int) ≤ padEx.columns then 0 else 1) ∧
    1 ≤ (padEx.setDisplayPos 500 0).beginRow ∧
    (padEx.setDisplayPos 500 0).beginRow ≤ padEx.rows ∧
    1 ≤ (padEx.setDisplayPos 500 0).beginColumn ∧
    (padEx.setDisplayPos 500 0).beginColumn ≤ padEx.columns ∧
    (padEx.movePad (50, 100) 500 0).beginRow = (padEx.setDisplayPos 500 0).beginRow ∧
    (padEx.movePad (50, 100) 500 0).beginColumn = (padEx.setDisplayPos 500 0).beginColumn :=
  setDisplayPos_clamps padEx 500 0 (50, 100) (by decide) (by decide)
